import Mathlib

/-!
# StudioSpeech: Synthesis–Fallback–Cache pipeline, shallow embedding

This file embeds the cache store (`CacheAgent`), the synthesis agent with its
engine fallback (`SynthAgent`), the post-processing encoder
(`PostProcessAgent`) and the top-level pipeline (`executeSynthesisPipeline`)
of the StudioSpeech repository, and proves or refutes the frozen claims about
them.

Modelling conventions:
* Go `float64` parameters are modelled as exact rationals (`ℚ`); Go's
  `fmt.Sprintf("%.3f", x)` is modelled by `fmtF 3` (fixed-point decimal with
  round-half-away-from-zero, the behaviour of `%f` at every non-tie, and no
  relevant input sits on a tie).
* The filesystem is a finite map from path to byte list (`FS`); `time.Time`
  is a nanosecond tick (`Nat`).
* Go maps are modelled as association lists with most-recently-written entry
  first; Go's map iteration order is unspecified, the list order stands in
  for one admissible order.
* External processes (piper, `say`, ffmpeg) are external collaborators: their
  outcomes are inputs to the model (`SynthEnv`, `PostEnv`, `PipelineEnv`),
  while every branch the Go code takes on those outcomes is modelled
  faithfully.
* A Go `nil`-pointer dereference (a crash) is modelled by a distinguished
  `panicked` outcome.
-/

/-! ## String and number formatting helpers (Go `fmt`, `path/filepath`) -/

/-- Left-pad a string with `'0'` to the given length. -/
def padZeros (n : Nat) (s : String) : String :=
  String.mk (List.replicate (n - s.length) '0') ++ s

/-- Go `fmt.Sprintf("%.<prec>f", q)`: fixed-point decimal with `prec` digits
after the point, rounding half away from zero. -/
def fmtF (prec : Nat) (q : ℚ) : String :=
  let scale : Nat := 10 ^ prec
  let a : Nat := (q.num * (scale : Int)).natAbs
  let d : Nat := q.den
  let n : Nat := (2 * a + d) / (2 * d)
  let sign := if q.num < 0 then "-" else ""
  sign ++ toString (n / scale) ++ "." ++ padZeros prec (toString (n % scale))

/-- Exact rational division in a form the kernel evaluates on literals;
`qdiv_eq_div` below proves it equal to `· / ·` on `ℚ`. -/
def qdiv (a b : ℚ) : ℚ :=
  mkRat (a.num * (b.den : Int) * Int.sign b.num) (a.den * b.num.natAbs)

/-- Go `filepath.Join dir name` for an already-clean `dir`. -/
def joinPath (dir name : String) : String :=
  if dir = "" then name else dir ++ "/" ++ name

/-- Whether a string contains a given character. -/
def strContains (s : String) (c : Char) : Bool :=
  s.data.contains c

/-- Go `filepath.Ext`: the suffix of the final path element starting at its
last dot, or `""` when the final element has no dot. -/
def goExt (p : String) : String :=
  let base := ((p.data.reverse).takeWhile (fun c => c ≠ '/')).reverse
  if base.contains '.' then
    String.mk ('.' :: ((base.reverse).takeWhile (fun c => c ≠ '.')).reverse)
  else ""

/-! ## UTF-8 and SHA-256 (Go `crypto/sha256` over the written byte stream) -/

/-- UTF-8 encoding of one character, as byte values. -/
def utf8EncodeChar (c : Char) : List Nat :=
  let n := c.toNat
  if n < 0x80 then [n]
  else if n < 0x800 then
    [0xC0 ||| (n >>> 6), 0x80 ||| (n &&& 0x3F)]
  else if n < 0x10000 then
    [0xE0 ||| (n >>> 12), 0x80 ||| ((n >>> 6) &&& 0x3F), 0x80 ||| (n &&& 0x3F)]
  else
    [0xF0 ||| (n >>> 18), 0x80 ||| ((n >>> 12) &&& 0x3F),
     0x80 ||| ((n >>> 6) &&& 0x3F), 0x80 ||| (n &&& 0x3F)]

/-- UTF-8 encoding of a string, as byte values (Go `[]byte(s)`). -/
def utf8Encode (s : String) : List Nat :=
  (s.data.map utf8EncodeChar).flatten

/-- 32-bit right rotation on a `Nat` below `2 ^ 32`. -/
def rotr32 (n x : Nat) : Nat :=
  ((x >>> n) ||| (x <<< (32 - n))) % 2 ^ 32

/-- 32-bit bitwise complement. -/
def not32 (x : Nat) : Nat := 2 ^ 32 - 1 - x

/-- SHA-256 round constants (decimal values of the standard table). -/
def sha256K : List Nat :=
  [1116352408, 1899447441, 3049323471, 3921009573, 961987163, 1508970993,
   2453635748, 2870763221, 3624381080, 310598401, 607225278, 1426881987,
   1925078388, 2162078206, 2614888103, 3248222580, 3835390401, 4022224774,
   264347078, 604807628, 770255983, 1249150122, 1555081692, 1996064986,
   2554220882, 2821834349, 2952996808, 3210313671, 3336571891, 3584528711,
   113926993, 338241895, 666307205, 773529912, 1294757372, 1396182291,
   1695183700, 1986661051, 2177026350, 2456956037, 2730485921, 2820302411,
   3259730800, 3345764771, 3516065817, 3600352804, 4094571909, 275423344,
   430227734, 506948616, 659060556, 883997877, 958139571, 1322822218,
   1537002063, 1747873779, 1955562222, 2024104815, 2227730452, 2361852424,
   2428436474, 2756734187, 3204031479, 3329325298]

/-- SHA-256 initial hash state (decimal values of the standard table). -/
def sha256H0 : List Nat :=
  [1779033703, 3144134277, 1013904242, 2773480762,
   1359893119, 2600822924, 528734635, 1541459225]

/-- Big-endian bytes of a `Nat`, to a fixed width. -/
def natToBytesBE (width n : Nat) : List Nat :=
  (List.range width).map (fun i => (n >>> (8 * (width - 1 - i))) % 256)

/-- Group a byte list into big-endian 32-bit words (4 bytes per word). -/
def bytesToWordsBE : List Nat → List Nat
  | b0 :: b1 :: b2 :: b3 :: rest =>
      (((b0 * 256 + b1) * 256 + b2) * 256 + b3) :: bytesToWordsBE rest
  | _ => []

/-- SHA-256 message padding. -/
def sha256Pad (msg : List Nat) : List Nat :=
  let l := msg.length
  let zeros := (120 - ((l + 1) % 64)) % 64
  msg ++ [0x80] ++ List.replicate zeros 0 ++ natToBytesBE 8 (l * 8)

/-- Split a byte list into 64-byte blocks. -/
def chunks64 : List Nat → List (List Nat)
  | [] => []
  | a :: rest => ((a :: rest).take 64) :: chunks64 ((a :: rest).drop 64)
termination_by l => l.length
decreasing_by
  simp only [List.length_drop, List.length_cons]
  omega

/-- Element of a word list, defaulting to 0. -/
def wd (w : List Nat) (i : Nat) : Nat := w.getD i 0

/-- SHA-256 message-schedule extension: grow the 16 block words to 64. -/
def sha256ExtendFrom (w : List Nat) (i fuel : Nat) : List Nat :=
  match fuel with
  | 0 => w
  | f + 1 =>
    let s0 := rotr32 7 (wd w (i - 15)) ^^^ rotr32 18 (wd w (i - 15)) ^^^
      (wd w (i - 15) >>> 3)
    let s1 := rotr32 17 (wd w (i - 2)) ^^^ rotr32 19 (wd w (i - 2)) ^^^
      (wd w (i - 2) >>> 10)
    sha256ExtendFrom
      (w ++ [(wd w (i - 16) + s0 + wd w (i - 7) + s1) % 2 ^ 32]) (i + 1) f

/-- One SHA-256 compression round over the 8-word working state. -/
def sha256Round (st : List Nat) (kw : Nat × Nat) : List Nat :=
  let a := wd st 0
  let b := wd st 1
  let c := wd st 2
  let d := wd st 3
  let e := wd st 4
  let f := wd st 5
  let g := wd st 6
  let h := wd st 7
  let S1 := rotr32 6 e ^^^ rotr32 11 e ^^^ rotr32 25 e
  let ch := (e &&& f) ^^^ (not32 e &&& g)
  let temp1 := (h + S1 + ch + kw.1 + kw.2) % 2 ^ 32
  let S0 := rotr32 2 a ^^^ rotr32 13 a ^^^ rotr32 22 a
  let maj := (a &&& b) ^^^ (a &&& c) ^^^ (b &&& c)
  let temp2 := (S0 + maj) % 2 ^ 32
  [(temp1 + temp2) % 2 ^ 32, a, b, c, (d + temp1) % 2 ^ 32, e, f, g]

/-- Process one 64-byte block into the running hash state. -/
def sha256Block (h : List Nat) (block : List Nat) : List Nat :=
  let w := sha256ExtendFrom (bytesToWordsBE block) 16 48
  let final := (sha256K.zip w).foldl sha256Round h
  (h.zip final).map (fun p => (p.1 + p.2) % 2 ^ 32)

/-- SHA-256 digest of a byte list, as 32 bytes. -/
def sha256Bytes (msg : List Nat) : List Nat :=
  let hs := (chunks64 (sha256Pad msg)).foldl sha256Block sha256H0
  (hs.map (natToBytesBE 4)).flatten

/-- The lowercase hex digit for a value below 16. -/
def hexDigit (n : Nat) : Char :=
  if n < 10 then Char.ofNat ('0'.toNat + n) else Char.ofNat (87 + n)

/-- Two-digit lowercase hex of a byte. -/
def byteToHex (b : Nat) : String :=
  String.mk [hexDigit (b / 16 % 16), hexDigit (b % 16)]

/-- Go `fmt.Sprintf("%x", sha256.Sum(...))`: lowercase hex digest of the
UTF-8 bytes of a string. -/
def sha256hex (s : String) : String :=
  String.join ((sha256Bytes (utf8Encode s)).map byteToHex)

/-! ## Data model (Go structs of `internal/agents`) -/

/-- `TextContent` (text ingestion output). -/
structure TextContent where
  Paragraphs : List String
  Language : String
  WordCount : Int
  Source : String
deriving DecidableEq, Repr

/-- `NormalizedText` (normalization output). `map[string]interface{}`
metadata is abstracted to a string association list. -/
structure NormalizedText where
  Sentences : List String
  Language : String
  Metadata : List (String × String)
deriving DecidableEq, Repr

/-- `Voice` (voice catalog entry). -/
structure Voice where
  ID : String
  Language : String
  Gender : String
  Style : String
  SampleRate : Int
  CommercialUseAllowed : Bool
  AttributionRequired : Bool
  LicenseName : String
  LicenseURL : String
  SourceURL : String
  SHA256 : String
  Path : String
deriving DecidableEq, Repr

/-- `SynthParams`: float64 fields as exact rationals, `Speaker` as Go `int`. -/
structure SynthParams where
  Speed : ℚ
  Noise : ℚ
  NoiseW : ℚ
  Speaker : Int
deriving DecidableEq, Repr

/-- `SynthResult`: `Duration` is a nanosecond tick. -/
structure SynthResult where
  OutputPath : String
  Duration : Nat
  SampleRate : Int
  Channels : Int
  FileSize : Int
deriving DecidableEq, Repr

/-- `AudioFormat` is a Go string type. -/
abbrev AudioFormat := String

/-- `FormatWAV` constant. -/
def FormatWAV : AudioFormat := "wav"

/-- `FormatMP3` constant. -/
def FormatMP3 : AudioFormat := "mp3"

/-- `PostProcessParams` (encoder parameters). -/
structure PostProcessParams where
  Format : AudioFormat
  SampleRate : Int
  Bitrate : Int
  LoudnessLUFS : ℚ
deriving DecidableEq, Repr

/-- `PostProcessResult`. -/
structure PostProcessResult where
  OutputPath : String
  Format : AudioFormat
  SampleRate : Int
  Channels : Int
  Duration : ℚ
  FileSize : Int
deriving DecidableEq, Repr

/-- Free-form cache metadata (`map[string]interface{}`), abstracted to a
string association list. -/
abbrev Metadata := List (String × String)

/-- `CacheEntry`: `CreatedAt` is a nanosecond tick. -/
structure CacheEntry where
  Key : String
  FilePath : String
  CreatedAt : Nat
  FileSize : Int
  Metadata : Metadata
deriving DecidableEq, Repr

/-- `CacheIndex`: the entries map as an association list (most recently
written first). -/
structure CacheIndex where
  Entries : List (String × CacheEntry)
  Version : String
deriving DecidableEq, Repr

/-- `CacheAgent`: `index = none` models the nil pointer before the index is
loaded; `maxAge` is in nanosecond ticks, `maxSize` in bytes. -/
structure CacheAgent where
  cacheDir : String
  indexPath : String
  index : Option CacheIndex
  maxAge : Nat
  maxSize : Int
deriving DecidableEq, Repr

/-- `NewCacheAgent`: defaults of 24 hours and 1 GiB, index not yet loaded. -/
def NewCacheAgent (cacheDir : String) : CacheAgent :=
  { cacheDir := cacheDir
    indexPath := joinPath cacheDir "index.json"
    index := none
    maxAge := 24 * 3600 * 1000000000
    maxSize := 1024 * 1024 * 1024 }

/-! ## Filesystem model -/

/-- A filesystem: association list from path to file bytes. -/
abbrev FS := List (String × List Nat)

/-- Content of a file, if it exists (`os.Open` / `os.ReadFile`). -/
def fsGet : FS → String → Option (List Nat)
  | [], _ => none
  | (q, v) :: rest, p => if q = p then some v else fsGet rest p

/-- Delete a file; deleting a missing file is a no-op (the Go code treats
`os.IsNotExist` as success on every removal path). -/
def fsErase : FS → String → FS
  | [], _ => []
  | (q, v) :: rest, p =>
    if q = p then fsErase rest p else (q, v) :: fsErase rest p

/-- Create/overwrite a file with the given bytes (`os.Create` + write). -/
def fsSet (fs : FS) (p : String) (v : List Nat) : FS :=
  (p, v) :: fsErase fs p

/-- `os.Stat`: the size of a file, if it exists. -/
def fsStat (fs : FS) (p : String) : Option Int :=
  (fsGet fs p).map (fun v => (v.length : Int))

/-! ## Association-list operations for the entries map -/

/-- Go map read `m[k]` (present case). -/
def lookupEntry : List (String × CacheEntry) → String → Option CacheEntry
  | [], _ => none
  | (q, v) :: rest, k => if q = k then some v else lookupEntry rest k

/-- Go map delete `delete(m, k)`. -/
def eraseEntry : List (String × CacheEntry) → String → List (String × CacheEntry)
  | [], _ => []
  | (q, v) :: rest, k =>
    if q = k then eraseEntry rest k else (q, v) :: eraseEntry rest k

/-- Go map write `m[k] = v` (overwrite). -/
def setEntry (l : List (String × CacheEntry)) (k : String) (v : CacheEntry) :
    List (String × CacheEntry) :=
  (k, v) :: eraseEntry l k

/-! ## CacheAgent operations -/

/-- Hash chunk for the synthesis parameters:
`fmt.Sprintf("%.3f-%.3f-%.3f-%d", Speed, Noise, NoiseW, Speaker)`. -/
def synthChunk (p : SynthParams) : String :=
  fmtF 3 p.Speed ++ "-" ++ fmtF 3 p.Noise ++ "-" ++ fmtF 3 p.NoiseW ++ "-" ++
    toString p.Speaker

/-- Hash chunk for the post-processing parameters:
`fmt.Sprintf("%s-%d-%d-%.1f", Format, SampleRate, Bitrate, LoudnessLUFS)`. -/
def postChunk (p : PostProcessParams) : String :=
  p.Format ++ "-" ++ toString p.SampleRate ++ "-" ++ toString p.Bitrate ++
    "-" ++ fmtF 1 p.LoudnessLUFS

/-- The byte stream `GenerateKey` feeds to the SHA-256 hasher: each paragraph
in order, then the voice ID, then (when non-nil) the synthesis-parameter
chunk, then (when non-nil) the post-processing chunk. -/
def keyMessage (content : TextContent) (voice : Voice)
    (synthParams : Option SynthParams) (postParams : Option PostProcessParams) :
    String :=
  String.join content.Paragraphs ++ voice.ID ++
    (match synthParams with | none => "" | some p => synthChunk p) ++
    (match postParams with | none => "" | some p => postChunk p)

/-- `CacheAgent.GenerateKey`: hex SHA-256 digest of the hashed stream. The
receiver is unused in the source as well. -/
def CacheAgent.GenerateKey (_c : CacheAgent) (content : TextContent)
    (voice : Voice) (synthParams : Option SynthParams)
    (postParams : Option PostProcessParams) : String :=
  sha256hex (keyMessage content voice synthParams postParams)

/-- Serialization of a cache entry for the persisted index (the JSON encoding
itself is an external collaborator; this stands in for it). -/
def encodeEntry (e : CacheEntry) : String :=
  e.Key ++ "|" ++ e.FilePath ++ "|" ++ toString e.CreatedAt ++ "|" ++
    toString e.FileSize ++ "|" ++
    String.join (e.Metadata.map (fun kv => kv.1 ++ "=" ++ kv.2 ++ ";"))

/-- Serialization of the cache index written by `saveIndex`. -/
def encodeIndex (idx : CacheIndex) : List Nat :=
  utf8Encode (idx.Version ++ "\n" ++
    String.join (idx.Entries.map (fun kv => kv.1 ++ ":" ++ encodeEntry kv.2 ++ "\n")))

/-- `saveIndex`: write the serialized index at `indexPath` (always succeeds in
the model; the Go error paths are filesystem failures). -/
def saveIndex (c : CacheAgent) (idx : CacheIndex) (fs : FS) : FS :=
  fsSet fs c.indexPath (encodeIndex idx)

/-- Result of `CacheAgent.Get`: returned entry, returned error, and the
agent/filesystem state after the call. -/
structure GetOut where
  entry : Option CacheEntry
  err : Option String
  c : CacheAgent
  fs : FS
deriving DecidableEq, Repr

/-- Result of `CacheAgent.Put` / `CacheAgent.Remove`. -/
structure OpOut where
  err : Option String
  c : CacheAgent
  fs : FS
deriving DecidableEq, Repr

/-- `CacheAgent.Get`: miss on unknown key; on a hit, evict and miss when the
artifact file is gone or the entry is older than `maxAge`. -/
def CacheAgent.Get (c : CacheAgent) (fs : FS) (now : Nat) (key : String) :
    GetOut :=
  match c.index with
  | none => ⟨none, some "cache not initialized", c, fs⟩
  | some idx =>
    match lookupEntry idx.Entries key with
    | none => ⟨none, none, c, fs⟩
    | some entry =>
      if (fsStat fs entry.FilePath).isNone then
        -- file missing: delete from index, save, miss
        let idx2 : CacheIndex := ⟨eraseEntry idx.Entries key, idx.Version⟩
        let c2 := { c with index := some idx2 }
        ⟨none, none, c2, saveIndex c2 idx2 fs⟩
      else if now - entry.CreatedAt > c.maxAge then
        -- entry too old: Remove(key) (its error is ignored), miss
        let idx2 : CacheIndex := ⟨eraseEntry idx.Entries key, idx.Version⟩
        let c2 := { c with index := some idx2 }
        let fs2 := fsErase fs entry.FilePath
        ⟨none, none, c2, saveIndex c2 idx2 fs2⟩
      else
        ⟨some entry, none, c, fs⟩

/-- `copyFile src dst`: `os.Create(dst)` truncates the destination first, then
the bytes are streamed from the (already open) source — so a source aliasing
the destination copies the truncated content. -/
def copyFile (fs : FS) (src dst : String) : FS :=
  let fs1 := fsSet fs dst []
  match fsGet fs1 src with
  | none => fs1
  | some content => fsSet fs1 dst content

/-- `CacheAgent.Put`: stat the source, copy it to
`cacheDir/key + Ext(filePath)`, record the entry, persist the index. -/
def CacheAgent.Put (c : CacheAgent) (fs : FS) (now : Nat) (key filePath : String)
    (metadata : Metadata) : OpOut :=
  match c.index with
  | none => ⟨some "cache not initialized", c, fs⟩
  | some idx =>
    match fsStat fs filePath with
    | none => ⟨some "failed to get file info", c, fs⟩
    | some size =>
      let cacheFilePath := joinPath c.cacheDir (key ++ goExt filePath)
      let fs2 := copyFile fs filePath cacheFilePath
      let entry : CacheEntry :=
        { Key := key, FilePath := cacheFilePath, CreatedAt := now
          FileSize := size, Metadata := metadata }
      let idx2 : CacheIndex := ⟨setEntry idx.Entries key entry, idx.Version⟩
      let c2 := { c with index := some idx2 }
      ⟨none, c2, saveIndex c2 idx2 fs2⟩

/-- `CacheAgent.Remove`: delete the artifact file (missing file tolerated),
drop the entry, persist the index. -/
def CacheAgent.Remove (c : CacheAgent) (fs : FS) (key : String) : OpOut :=
  match c.index with
  | none => ⟨some "cache not initialized", c, fs⟩
  | some idx =>
    match lookupEntry idx.Entries key with
    | none => ⟨none, c, fs⟩
    | some entry =>
      let fs2 := fsErase fs entry.FilePath
      let idx2 : CacheIndex := ⟨eraseEntry idx.Entries key, idx.Version⟩
      let c2 := { c with index := some idx2 }
      ⟨none, c2, saveIndex c2 idx2 fs2⟩

/-- Outcome of `CacheAgent.Prune`: a normal return, or a Go runtime panic
(nil-pointer dereference). -/
inductive PruneOut
  | ret (err : Option String) (c : CacheAgent) (fs : FS)
  | panicked
deriving DecidableEq, Repr

/-- The loop `for _, key := range toRemove { c.Remove(key);
totalSize -= c.index.Entries[key].FileSize }`. Reading `Entries[key]` after
`Remove` deleted it yields a nil `*CacheEntry`, and `.FileSize` on it is a
nil-pointer dereference. -/
def pruneExpiredLoop (c : CacheAgent) (fs : FS) (totalSize : Int) :
    List String → Option (CacheAgent × FS × Int)
  | [] => some (c, fs, totalSize)
  | key :: rest =>
    let r := CacheAgent.Remove c fs key
    match r.c.index with
    | none => none -- unreachable: Remove keeps the index loaded
    | some idx2 =>
      match lookupEntry idx2.Entries key with
      | none => none -- nil map value: `.FileSize` panics
      | some e => pruneExpiredLoop r.c r.fs (totalSize - e.FileSize) rest

/-- The capacity loop: range over the (remaining) entries, removing until the
running total is within `maxSize`. -/
def pruneSizeLoop (c : CacheAgent) (fs : FS) (totalSize : Int) :
    List (String × CacheEntry) → CacheAgent × FS
  | [] => (c, fs)
  | (key, entry) :: rest =>
    if totalSize ≤ c.maxSize then (c, fs)
    else
      let r := CacheAgent.Remove c fs key
      pruneSizeLoop r.c r.fs (totalSize - entry.FileSize) rest

/-- `CacheAgent.Prune`: collect the total size and the TTL-expired keys, run
the (panicking) expired-entry loop, then the capacity loop. -/
def CacheAgent.Prune (c : CacheAgent) (fs : FS) (now : Nat) : PruneOut :=
  match c.index with
  | none => .ret (some "cache not initialized") c fs
  | some idx =>
    let totalSize : Int := (idx.Entries.map (fun kv => kv.2.FileSize)).sum
    let toRemove : List String :=
      (idx.Entries.filter (fun kv => now - kv.2.CreatedAt > c.maxAge)).map
        (fun kv => kv.1)
    match pruneExpiredLoop c fs totalSize toRemove with
    | none => .panicked
    | some (c2, fs2, total2) =>
      match c2.index with
      | none => .panicked -- unreachable
      | some idx2 =>
        if total2 > c.maxSize then
          let (c3, fs3) := pruneSizeLoop c2 fs2 total2 idx2.Entries
          .ret none c3 fs3
        else
          .ret none c2 fs2

/-! ## SynthAgent: Piper invocation and macOS fallback -/

/-- `SynthAgent` state. -/
structure SynthAgent where
  piperPath : String
  tempDir : String
  dryRun : Bool
deriving DecidableEq, Repr

/-- `NewSynthAgent`. -/
def NewSynthAgent (piperPath tempDir : String) : SynthAgent :=
  { piperPath := piperPath, tempDir := tempDir, dryRun := false }

/-- An `exec.Cmd`: `Args` carries the binary name first, as Go's
`exec.Command` does. -/
structure Cmd where
  Path : String
  Args : List String
deriving DecidableEq, Repr

/-- `SynthAgent.getDefaultParams`. -/
def SynthAgent.getDefaultParams (_s : SynthAgent) : SynthParams :=
  { Speed := mkRat 103 100, Noise := mkRat 667 1000, NoiseW := mkRat 4 5
    Speaker := 0 }

/-- `SynthAgent.validateParams`: first violated bound wins; `none` means
valid. -/
def SynthAgent.validateParams (_s : SynthAgent) (params : SynthParams) :
    Option String :=
  if params.Speed < mkRat 1 2 ∨ params.Speed > 2 then
    some ("speed must be between 0.5 and 2.0, got " ++ fmtF 2 params.Speed)
  else if params.Noise < 0 ∨ params.Noise > 1 then
    some ("noise must be between 0.0 and 1.0, got " ++ fmtF 3 params.Noise)
  else if params.NoiseW < 0 ∨ params.NoiseW > 1 then
    some ("noiseW must be between 0.0 and 1.0, got " ++ fmtF 3 params.NoiseW)
  else if params.Speaker < 0 then
    some ("speaker must be >= 0, got " ++ toString params.Speaker)
  else none

/-- `SynthAgent.isMacOSVoice`: a voice whose path has no separator and no
extension is treated as a macOS system voice. -/
def SynthAgent.isMacOSVoice (_s : SynthAgent) (voice : Voice) : Bool :=
  ¬ strContains voice.Path '/' ∧ ¬ strContains voice.Path '.'

/-- `SynthAgent.buildPiperCommand`: ordered argument list, with
`length_scale = 1 / speed` and all rationals at fixed 3-decimal precision. -/
def SynthAgent.buildPiperCommand (s : SynthAgent) (modelPath outputPath : String)
    (params : SynthParams) : Cmd :=
  let args :=
    ["--model", modelPath, "--output_file", outputPath,
     "--length_scale", fmtF 3 (qdiv 1 params.Speed),
     "--noise_scale", fmtF 3 params.Noise,
     "--noise_w", fmtF 3 params.NoiseW] ++
    (if params.Speaker > 0 then ["--speaker", toString params.Speaker] else [])
  { Path := s.piperPath, Args := s.piperPath :: args }

/-- `MacOSTTSAgent.selectVoice`. -/
def selectVoice (gender language : String) : String :=
  if language = "el-GR" then "Melina"
  else if gender = "male" then "Alex"
  else "Samantha"

/-- One engine invocation, as recorded on the execution trace. -/
inductive EngineCall
  | piperRun
  | macRun (gender : String) (voice : String)
deriving DecidableEq, Repr

/-- Outcomes of the external collaborators of one `Synthesize` call: whether
the voice model file exists, the result of `executePiper`, the availability
and result of the macOS `say` engine, the elapsed wall time, and the size of
the produced output file (`none` when it does not exist). -/
structure SynthEnv where
  modelFileExists : Bool
  piperResult : Option String
  macAvailable : Bool
  macResult : Option String
  elapsed : Nat
  outputFileSize : Option Int
deriving DecidableEq, Repr

/-- `SynthAgent.Synthesize`, returning the Go result plus the ordered list of
engine invocations actually performed. `nowNano` names the temporary output
file. -/
def SynthAgent.Synthesize (s : SynthAgent) (normalized : Option NormalizedText)
    (voice : Option Voice) (params0 : Option SynthParams) (env : SynthEnv)
    (nowNano : Nat) : Except String SynthResult × List EngineCall :=
  match normalized with
  | none => (.error "normalized text is nil", [])
  | some nt =>
  match voice with
  | none => (.error "voice is nil", [])
  | some v =>
  let params := params0.getD (s.getDefaultParams)
  match s.validateParams params with
  | some e => (.error ("invalid synthesis parameters: " ++ e), [])
  | none =>
  if !s.dryRun ∧ !s.isMacOSVoice v ∧ !env.modelFileExists then
    (.error ("voice model file not found: " ++ v.Path), [])
  else
  let outputPath := joinPath s.tempDir ("synth_" ++ toString nowNano ++ ".wav")
  if s.dryRun then
    (.ok { OutputPath := outputPath, Duration := 0, SampleRate := v.SampleRate,
           Channels := 1, FileSize := 0 }, [])
  else
    let finish : List EngineCall → Except String SynthResult × List EngineCall :=
      fun calls =>
        match env.outputFileSize with
        | none => (.error "failed to get output file info: file does not exist",
            calls)
        | some sz =>
          (.ok { OutputPath := outputPath, Duration := env.elapsed,
                 SampleRate := v.SampleRate, Channels := 1, FileSize := sz },
           calls)
    if s.isMacOSVoice v then
      if env.macAvailable then
        let call := EngineCall.macRun v.Gender (selectVoice v.Gender nt.Language)
        match env.macResult with
        | some e => (.error ("macOS TTS synthesis failed: " ++ e), [call])
        | none => finish [call]
      else (.error "macOS TTS not available", [])
    else
      match env.piperResult with
      | none => finish [.piperRun]
      | some piperErr =>
        if env.macAvailable then
          let gender := if params.Speaker > 0 then "male" else "female"
          let call := EngineCall.macRun gender (selectVoice gender nt.Language)
          match env.macResult with
          | some macErr =>
            -- the inner `err` of the Go `if` statement shadows the piper
            -- error: both format verbs receive the macOS error
            (.error ("both Piper and macOS TTS failed: piper=" ++ macErr ++
              ", macos=" ++ macErr), [.piperRun, call])
          | none => finish [.piperRun, call]
        else
          (.error ("piper synthesis failed and no fallback available: " ++
            piperErr), [.piperRun])

/-! ## PostProcessAgent: FFmpeg encoding -/

/-- `PostProcessAgent` state. -/
structure PostProcessAgent where
  ffmpegPath : String
  tempDir : String
  dryRun : Bool
deriving DecidableEq, Repr

/-- `NewPostProcessAgent`. -/
def NewPostProcessAgent (ffmpegPath tempDir : String) : PostProcessAgent :=
  { ffmpegPath := ffmpegPath, tempDir := tempDir, dryRun := false }

/-- `PostProcessAgent.getDefaultParams`. -/
def PostProcessAgent.getDefaultParams (_p : PostProcessAgent) :
    PostProcessParams :=
  { Format := FormatMP3, SampleRate := 48000, Bitrate := 192,
    LoudnessLUFS := -16 }

/-- `PostProcessAgent.validateParams`. -/
def PostProcessAgent.validateParams (_p : PostProcessAgent)
    (params : PostProcessParams) : Option String :=
  if params.Format ≠ FormatWAV ∧ params.Format ≠ FormatMP3 then
    some ("unsupported format: " ++ params.Format)
  else if params.SampleRate < 8000 ∨ params.SampleRate > 192000 then
    some ("sample rate must be between 8000 and 192000 Hz, got " ++
      toString params.SampleRate)
  else if params.Format = FormatMP3 ∧
      (params.Bitrate < 64 ∨ params.Bitrate > 320) then
    some ("MP3 bitrate must be between 64 and 320 kbps, got " ++
      toString params.Bitrate)
  else if params.LoudnessLUFS ≠ 0 ∧
      (params.LoudnessLUFS < -30 ∨ params.LoudnessLUFS > -6) then
    some ("loudness must be between -30 and -6 LUFS, got " ++
      fmtF 1 params.LoudnessLUFS)
  else none

/-- `PostProcessAgent.buildFFmpegCommand`: ordered argument list with
resampling, mono downmix, loudness normalization and format options. -/
def PostProcessAgent.buildFFmpegCommand (p : PostProcessAgent)
    (inputPath outputPath : String) (params : PostProcessParams) : Cmd :=
  let filters :=
    ["aresample=" ++ toString params.SampleRate,
     "pan=mono|c0=0.5*c0+0.5*c1"] ++
    (if params.LoudnessLUFS ≠ 0 then
      ["loudnorm=I=" ++ fmtF 1 params.LoudnessLUFS ++ ":TP=-1.0:LRA=7.0"]
    else [])
  let args :=
    ["-i", inputPath, "-y", "-af", String.intercalate "," filters] ++
    (if params.Format = FormatMP3 then
      ["-codec:a", "libmp3lame", "-b:a", toString params.Bitrate ++ "k",
       "-ar", toString params.SampleRate]
    else if params.Format = FormatWAV then
      ["-codec:a", "pcm_s16le", "-ar", toString params.SampleRate]
    else []) ++
    [outputPath]
  { Path := p.ffmpegPath, Args := p.ffmpegPath :: args }

/-- Outcomes of the external collaborators of a `Process` call: whether the
input file exists, the ffmpeg run result, and the size of the output file
afterwards (`none` when it does not exist). -/
structure PostEnv where
  inputExists : Bool
  ffmpegResult : Option String
  outputStat : Option Int
deriving DecidableEq, Repr

/-- `PostProcessAgent.Process`: validate, check the input, run ffmpeg, stat
the output. After a successful ffmpeg run the only check on the produced file
is `os.Stat`; its size is recorded but not inspected. -/
def PostProcessAgent.Process (p : PostProcessAgent)
    (inputPath outputPath : String) (params0 : Option PostProcessParams)
    (env : PostEnv) : Except String PostProcessResult :=
  let params := params0.getD p.getDefaultParams
  match p.validateParams params with
  | some e => .error ("invalid parameters: " ++ e)
  | none =>
  if !p.dryRun ∧ !env.inputExists then
    .error ("input file not found: " ++ inputPath)
  else if p.dryRun then
    .ok { OutputPath := outputPath, Format := params.Format,
          SampleRate := params.SampleRate, Channels := 1, Duration := 0,
          FileSize := 0 }
  else
    match env.ffmpegResult with
    | some e => .error ("ffmpeg processing failed: " ++ e)
    | none =>
      match env.outputStat with
      | none => .error "failed to get output file info: file does not exist"
      | some sz =>
        .ok { OutputPath := outputPath, Format := params.Format,
              SampleRate := params.SampleRate, Channels := 1, Duration := 0,
              FileSize := sz }

/-! ## The synthesis pipeline (`cmd/ttscli/pipeline.go`) -/

/-- The calls `executeSynthesisPipeline` makes, in order. -/
inductive PipeEvent
  | ingest
  | validateContent
  | loadCatalog
  | selectVoice
  | normalizeText
  | validateNormalized
  | mkTempDir
  | engineSynthesize
  | cacheInit
  | generateKey
  | cacheGet
  | copyCached
  | postprocess
  | cachePut
deriving DecidableEq, Repr

/-- Outcomes of each pipeline step's collaborator. The cache lookup outcome
is the pair `(entry, err)` returned by `CacheAgent.Get` on the shared cache
state. -/
structure PipelineEnv where
  ingestResult : Except String TextContent
  contentValidationError : Option String
  catalogLoadError : Option String
  voiceResult : Except String Voice
  normalizeResult : Except String NormalizedText
  normalizedValidationError : Option String
  tempDirError : Option String
  synthResult : Except String SynthResult
  cacheInitError : Option String
  cacheGetEntry : Option CacheEntry
  cacheGetError : Option String
  copyCachedError : Option String
  postResult : Except String PostProcessResult
  cachePutError : Option String
deriving Repr

/-- `executeSynthesisPipeline`: ingestion, voice selection, normalization,
synthesis, cache lookup, post-processing, cache write — in the source's
order. Returns the Go error and the ordered trace of steps reached. -/
def executeSynthesisPipeline (env : PipelineEnv) :
    Except String Unit × List PipeEvent :=
  match env.ingestResult with
  | .error e => (.error ("text ingestion failed: " ++ e), [.ingest])
  | .ok _content =>
  match env.contentValidationError with
  | some e => (.error ("content validation failed: " ++ e),
      [.ingest, .validateContent])
  | none =>
  match env.catalogLoadError with
  | some e => (.error ("voice catalog loading failed: " ++ e),
      [.ingest, .validateContent, .loadCatalog])
  | none =>
  match env.voiceResult with
  | .error e => (.error ("voice selection failed: " ++ e),
      [.ingest, .validateContent, .loadCatalog, .selectVoice])
  | .ok _voice =>
  match env.normalizeResult with
  | .error e => (.error ("text normalization failed: " ++ e),
      [.ingest, .validateContent, .loadCatalog, .selectVoice, .normalizeText])
  | .ok _normalized =>
  match env.normalizedValidationError with
  | some e => (.error ("normalized text validation failed: " ++ e),
      [.ingest, .validateContent, .loadCatalog, .selectVoice, .normalizeText,
       .validateNormalized])
  | none =>
  match env.tempDirError with
  | some e => (.error ("failed to create temp directory: " ++ e),
      [.ingest, .validateContent, .loadCatalog, .selectVoice, .normalizeText,
       .validateNormalized, .mkTempDir])
  | none =>
  let pre := [PipeEvent.ingest, .validateContent, .loadCatalog, .selectVoice,
    .normalizeText, .validateNormalized, .mkTempDir]
  match env.synthResult with
  | .error e => (.error ("synthesis failed: " ++ e), pre ++ [.engineSynthesize])
  | .ok _synth =>
  match env.cacheInitError with
  | some e => (.error ("cache initialization failed: " ++ e),
      pre ++ [.engineSynthesize, .cacheInit])
  | none =>
  let pre2 := pre ++ [PipeEvent.engineSynthesize, .cacheInit, .generateKey,
    .cacheGet]
  -- `if entry, err := cacheAgent.Get(cacheKey); err == nil && entry != nil`
  if env.cacheGetError = none ∧ env.cacheGetEntry.isSome then
    match env.copyCachedError with
    | some e => (.error ("failed to copy cached file: " ++ e),
        pre2 ++ [.copyCached])
    | none => (.ok (), pre2 ++ [.copyCached])
  else
    match env.postResult with
    | .error e => (.error ("post-processing failed: " ++ e),
        pre2 ++ [.postprocess])
    | .ok _post =>
      -- a cache write failure is logged, not surfaced
      (.ok (), pre2 ++ [.postprocess, .cachePut])

/-! ## Concrete example values used by the theorems -/

/-- An example model-driven voice (the path has a separator and an
extension, so it is not a macOS voice). -/
def voiceEx : Voice :=
  { ID := "en_us_ljspeech_medium", Language := "en-US", Gender := "female"
    Style := "neutral", SampleRate := 22050, CommercialUseAllowed := true
    AttributionRequired := false, LicenseName := "CC0", LicenseURL := ""
    SourceURL := "", SHA256 := "", Path := "/models/en_us.onnx" }

/-- Example normalized text. -/
def normalizedEx : NormalizedText :=
  { Sentences := ["Hello world"], Language := "en-US", Metadata := [] }

/-- Example synthesis parameters (all inside the valid bounds). -/
def spEx : SynthParams :=
  { Speed := mkRat 103 100, Noise := mkRat 667 1000, NoiseW := mkRat 4 5
    Speaker := 0 }

/-- Example post-processing parameters (valid mp3 settings). -/
def ppEx : PostProcessParams :=
  { Format := "mp3", SampleRate := 48000, Bitrate := 192, LoudnessLUFS := -16 }

/-- Example text content. -/
def contentA : TextContent :=
  { Paragraphs := ["Hello world", "Test content"], Language := "en-US"
    WordCount := 4, Source := "script.txt" }

/-- The same request with the text sequence re-segmented: a different
paragraph list with the same concatenation. -/
def contentB : TextContent :=
  { Paragraphs := ["Hello worldTest content"], Language := "en-US"
    WordCount := 4, Source := "script.txt" }

/-- An (uninitialized) cache agent for `GenerateKey` calls. -/
def cacheEx : CacheAgent := NewCacheAgent "/cache"

/-- `contentA` with different non-hashed metadata (language, word count,
source). -/
def contentA2 : TextContent :=
  { Paragraphs := ["Hello world", "Test content"], Language := "el-GR"
    WordCount := 9, Source := "other.txt" }

/-- `voiceEx` with the same id but different non-hashed voice fields. -/
def voiceEx2 : Voice :=
  { ID := "en_us_ljspeech_medium", Language := "en-US", Gender := "male"
    Style := "neutral", SampleRate := 48000, CommercialUseAllowed := false
    AttributionRequired := true, LicenseName := "MIT", LicenseURL := ""
    SourceURL := "", SHA256 := "", Path := "/elsewhere/m.onnx" }

/-- An initialized cache agent holding one entry created at tick 0 with a
TTL of 100 ticks. -/
def entryC4 : CacheEntry :=
  { Key := "k1", FilePath := "/cache/k1.wav", CreatedAt := 0, FileSize := 10
    Metadata := [] }

/-- Cache state for the `Prune` evaluation: one expired entry. -/
def cacheC4 : CacheAgent :=
  { cacheDir := "/cache", indexPath := "/cache/index.json"
    index := some ⟨[("k1", entryC4)], "1.0"⟩, maxAge := 100, maxSize := 1000000 }

/-- Filesystem for the `Prune` evaluation: the entry's artifact exists. -/
def fsC4 : FS := [("/cache/k1.wav", [0, 1, 2])]

/-- A cache entry for the `Get` witness. -/
def entryC7 : CacheEntry :=
  { Key := "a", FilePath := "/c7/a.mp3", CreatedAt := 0, FileSize := 3
    Metadata := [] }

/-- Index for the `Get` witness. -/
def idxC7 : CacheIndex := ⟨[("a", entryC7)], "1.0"⟩

/-- Initialized cache for the `Get` witness. -/
def cacheC7 : CacheAgent :=
  { cacheDir := "/c7", indexPath := "/c7/index.json", index := some idxC7
    maxAge := 100, maxSize := 1000 }

/-- Filesystem for the `Get` witness. -/
def fsC7 : FS := [("/c7/a.mp3", [1, 2, 3])]

/-- Initialized empty cache for the `Put`/`Get` round-trip instances. -/
def cacheC8 : CacheAgent :=
  { cacheDir := "/c8", indexPath := "/c8/index.json"
    index := some ⟨[], "1.0"⟩, maxAge := 100, maxSize := 1000000 }

/-- Filesystem for the aliasing `Put` counterexample: the caller's source
path is exactly the cache's own storage path for key "k". -/
def fsC8 : FS := [("/c8/k.mp3", [1, 2, 3])]

/-- Filesystem for the round-trip witness: the artifact sits outside the
cache directory. -/
def fsC8b : FS := [("/tmp/out.mp3", [9, 8, 7])]

/-- Synthesis agent in real (non-dry-run) mode. -/
def synthAgentEx : SynthAgent := NewSynthAgent "piper" "/tmp/work"

/-- The diagnostic `executePiper` produces for a failing primary engine. -/
def piperMsg : String := "piper execution failed: exit status 1"

/-- The diagnostic the macOS fallback produces when it also fails. -/
def macMsg : String := "macOS TTS failed: exit status 127"

/-- Environment for the dual-failure run: the primary fails, the secondary is
available and fails with its own distinct diagnostic. -/
def envC3 : SynthEnv :=
  { modelFileExists := true, piperResult := some piperMsg
    macAvailable := true, macResult := some macMsg, elapsed := 5
    outputFileSize := some 100 }

/-- Environment for the missing-model-file run: the secondary engine is
available and would succeed. -/
def envC5 : SynthEnv :=
  { modelFileExists := false, piperResult := none, macAvailable := true
    macResult := none, elapsed := 5, outputFileSize := some 100 }

/-- Post-processing agent in real (non-dry-run) mode. -/
def postAgentEx : PostProcessAgent := NewPostProcessAgent "ffmpeg" "/tmp/work"

/-- Environment for the empty-output encoding run: ffmpeg reports success and
the output file exists with size zero. -/
def envC6 : PostEnv :=
  { inputExists := true, ffmpegResult := none, outputStat := some 0 }

/-- An example synthesis result, as the pipeline's synthesis step returns. -/
def synthResultEx : SynthResult :=
  { OutputPath := "/tmp/work/synth_42.wav", Duration := 5, SampleRate := 22050
    Channels := 1, FileSize := 100 }

/-- An example cache entry for a pipeline cache hit. -/
def hitEntryEx : CacheEntry :=
  { Key := "deadbeef", FilePath := "/cache/deadbeef.mp3", CreatedAt := 3
    FileSize := 100, Metadata := [] }

/-- An example post-processing result. -/
def postResultEx : PostProcessResult :=
  { OutputPath := "/out/voice.mp3", Format := "mp3", SampleRate := 48000
    Channels := 1, Duration := 0, FileSize := 100 }

/-- Pipeline environment in which every step succeeds and the cache lookup
is a hit. -/
def pipelineHitEnv : PipelineEnv :=
  { ingestResult := .ok contentA, contentValidationError := none
    catalogLoadError := none, voiceResult := .ok voiceEx
    normalizeResult := .ok normalizedEx, normalizedValidationError := none
    tempDirError := none, synthResult := .ok synthResultEx
    cacheInitError := none, cacheGetEntry := some hitEntryEx
    cacheGetError := none, copyCachedError := none
    postResult := .ok postResultEx
    cachePutError := none }

/-- Whether the agent's loaded index currently holds a key. -/
def CacheAgent.hasKey (c : CacheAgent) (key : String) : Bool :=
  match c.index with
  | none => false
  | some idx => (lookupEntry idx.Entries key).isSome

/-! ## Helper lemmas about the map and filesystem models -/

theorem lookupEntry_erase_self (l : List (String × CacheEntry)) (k : String) :
    lookupEntry (eraseEntry l k) k = none := by
  induction l with
  | nil => rfl
  | cons hd tl ih =>
    rcases hd with ⟨a, v⟩
    by_cases h : a = k
    · simpa [eraseEntry, h] using ih
    · simpa [eraseEntry, lookupEntry, h] using ih

theorem lookupEntry_set_self (l : List (String × CacheEntry)) (k : String)
    (v : CacheEntry) : lookupEntry (setEntry l k v) k = some v := by
  simp [setEntry, lookupEntry]

theorem fsGet_set_self (fs : FS) (p : String) (v : List Nat) :
    fsGet (fsSet fs p v) p = some v := by
  simp [fsSet, fsGet]

theorem fsGet_erase_of_ne (fs : FS) (p q : String) (h : p ≠ q) :
    fsGet (fsErase fs p) q = fsGet fs q := by
  induction fs with
  | nil => rfl
  | cons hd tl ih =>
    rcases hd with ⟨a, v⟩
    by_cases hap : a = p
    · subst hap
      simp [fsErase, fsGet, h, ih]
    · by_cases haq : a = q
      · subst haq
        simp [fsErase, fsGet, hap]
      · simp [fsErase, fsGet, hap, haq, ih]

theorem fsGet_set_of_ne (fs : FS) (p q : String) (v : List Nat) (h : p ≠ q) :
    fsGet (fsSet fs p v) q = fsGet fs q := by
  have : ¬ (p = q) := h
  simp only [fsSet, fsGet, if_neg this]
  exact fsGet_erase_of_ne fs p q h

theorem qdiv_eq_div (a b : ℚ) : qdiv a b = a / b := by
  rcases eq_or_ne b 0 with hb | hb
  · subst hb
    simp [qdiv]
  · have hbnum : b.num ≠ 0 := Rat.num_ne_zero.mpr hb
    have haden : ((a.den : ℚ)) ≠ 0 := Nat.cast_ne_zero.mpr (Rat.den_ne_zero a)
    have hbden : ((b.den : ℚ)) ≠ 0 := Nat.cast_ne_zero.mpr (Rat.den_ne_zero b)
    have h1 : a * (a.den : ℚ) = (a.num : ℚ) := by
      have key : (a.num : ℚ) / (a.den : ℚ) * (a.den : ℚ) = a * (a.den : ℚ) := by
        rw [Rat.num_div_den a]
      rw [div_mul_cancel₀ _ haden] at key
      exact key.symm
    have h2 : b * (b.den : ℚ) = (b.num : ℚ) := by
      have key : (b.num : ℚ) / (b.den : ℚ) * (b.den : ℚ) = b * (b.den : ℚ) := by
        rw [Rat.num_div_den b]
      rw [div_mul_cancel₀ _ hbden] at key
      exact key.symm
    have hnabs : (b.num.natAbs : ℚ) ≠ 0 := by
      rw [Ne, Nat.cast_eq_zero, Int.natAbs_eq_zero]
      exact hbnum
    have hden2 : (((a.den * b.num.natAbs : Nat) : ℚ)) ≠ 0 := by
      push_cast
      exact mul_ne_zero haden hnabs
    rw [qdiv, Rat.mkRat_eq_div, div_eq_div_iff hden2 hb]
    push_cast
    rcases lt_or_gt_of_ne hbnum with hneg | hpos
    · rw [Int.sign_eq_neg_one_of_neg hneg]
      have habs : ((b.num.natAbs : ℚ)) = -(b.num : ℚ) := by
        rw [Int.cast_natAbs, abs_of_neg hneg]
        push_cast
        ring
      rw [habs, ← h1, ← h2]
      push_cast
      ring
    · rw [Int.sign_eq_one_of_pos hpos]
      have habs : ((b.num.natAbs : ℚ)) = (b.num : ℚ) := by
        rw [Int.cast_natAbs, abs_of_pos hpos]
      rw [habs, ← h1, ← h2]
      push_cast
      ring

/-! ## Claim theorems -/

/-- C10: on a `CacheAgent` whose index has not been loaded, each of `Get`,
`Put`, `Remove` and `Prune` returns a "cache not initialized" error and
leaves both the agent and the filesystem untouched. -/
theorem c10_uninitialized_operations (c : CacheAgent) (fs : FS) (now : Nat)
    (key filePath : String) (md : Metadata) (h : c.index = none) :
    CacheAgent.Get c fs now key = ⟨none, some "cache not initialized", c, fs⟩ ∧
    CacheAgent.Put c fs now key filePath md =
      ⟨some "cache not initialized", c, fs⟩ ∧
    CacheAgent.Remove c fs key = ⟨some "cache not initialized", c, fs⟩ ∧
    CacheAgent.Prune c fs now = .ret (some "cache not initialized") c fs := by
  refine ⟨?_, ?_, ?_, ?_⟩ <;>
    simp [CacheAgent.Get, CacheAgent.Put, CacheAgent.Remove, CacheAgent.Prune, h]

/-- Witness for C10, at a freshly constructed agent. -/
theorem c10_uninitialized_operations_witness :
    (NewCacheAgent "/cache").index = none ∧
    (CacheAgent.Get (NewCacheAgent "/cache") [] 0 "k" =
        ⟨none, some "cache not initialized", NewCacheAgent "/cache", []⟩ ∧
      CacheAgent.Put (NewCacheAgent "/cache") [] 0 "k" "/tmp/a.mp3" [] =
        ⟨some "cache not initialized", NewCacheAgent "/cache", []⟩ ∧
      CacheAgent.Remove (NewCacheAgent "/cache") [] "k" =
        ⟨some "cache not initialized", NewCacheAgent "/cache", []⟩ ∧
      CacheAgent.Prune (NewCacheAgent "/cache") [] 0 =
        .ret (some "cache not initialized") (NewCacheAgent "/cache") []) :=
  ⟨rfl,
    c10_uninitialized_operations (NewCacheAgent "/cache") [] 0 "k" "/tmp/a.mp3"
      [] rfl⟩

/-- C4 (code bug): on an initialized cache holding one TTL-expired entry,
`Prune` does not remove the expired entries and return without error — it
dereferences the just-deleted map entry (`c.index.Entries[key].FileSize`
after `c.Remove(key)`) and crashes with a nil-pointer panic. -/
theorem c4_prune_panics_on_expired_entry :
    cacheC4.index.isSome = true ∧
    101 - entryC4.CreatedAt > cacheC4.maxAge ∧
    CacheAgent.Prune cacheC4 fsC4 101 = PruneOut.panicked := by
  refine ⟨rfl, by decide, by decide⟩

/-- C9: the built piper invocation carries `--length_scale` immediately
followed by `1 / speed` formatted to exactly 3 decimals, and speed 1.03
yields the string "0.971". -/
theorem c9_length_scale_argument (s : SynthAgent) (modelPath outputPath : String)
    (p : SynthParams) (_h1 : mkRat 1 2 ≤ p.Speed) (_h2 : p.Speed ≤ 2) :
    List.IsInfix ["--length_scale", fmtF 3 (1 / p.Speed)]
      (s.buildPiperCommand modelPath outputPath p).Args ∧
    fmtF 3 (1 / (mkRat 103 100)) = "0.971" := by
  constructor
  · rw [← qdiv_eq_div 1 p.Speed]
    exact ⟨[s.piperPath, "--model", modelPath, "--output_file", outputPath],
      ["--noise_scale", fmtF 3 p.Noise, "--noise_w", fmtF 3 p.NoiseW] ++
        (if p.Speaker > 0 then ["--speaker", toString p.Speaker] else []),
      rfl⟩
  · rw [← qdiv_eq_div 1 (mkRat 103 100)]
    decide

/-- Witness for C9 at the default speed 1.03. -/
theorem c9_length_scale_argument_witness :
    (mkRat 1 2 ≤ spEx.Speed ∧ spEx.Speed ≤ 2) ∧
    (List.IsInfix ["--length_scale", fmtF 3 (1 / spEx.Speed)]
        (synthAgentEx.buildPiperCommand "/models/en_us.onnx" "/tmp/out.wav"
          spEx).Args ∧
      fmtF 3 (1 / (mkRat 103 100)) = "0.971") :=
  ⟨⟨by decide, by decide⟩,
    c9_length_scale_argument synthAgentEx "/models/en_us.onnx" "/tmp/out.wav"
      spEx (by decide) (by decide)⟩

/-- C1 (code bug): the pipeline invokes the synthesis engine (step 4) before
it consults the cache (step 5), so a request whose key is already cached
still re-invokes the engine: in a run where every step succeeds and the
cache lookup is a hit, `engineSynthesize` appears on the trace before
`cacheGet`. -/
theorem c1_engine_invoked_before_cache_lookup :
    pipelineHitEnv.cacheGetError = none ∧
    pipelineHitEnv.cacheGetEntry.isSome = true ∧
    executeSynthesisPipeline pipelineHitEnv =
      (.ok (), [.ingest, .validateContent, .loadCatalog, .selectVoice,
        .normalizeText, .validateNormalized, .mkTempDir, .engineSynthesize,
        .cacheInit, .generateKey, .cacheGet, .copyCached]) ∧
    PipeEvent.engineSynthesize ∈ (executeSynthesisPipeline pipelineHitEnv).2 := by
  refine ⟨rfl, rfl, rfl, by decide⟩

/-- C3 (code bug): when the primary piper attempt fails and the macOS
fallback also fails, the combined error repeats the secondary (macOS)
diagnostic in both the `piper=` and `macos=` positions; the primary's actual
diagnostic does not appear. -/
theorem c3_dual_failure_error_duplicates_secondary :
    envC3.piperResult = some piperMsg ∧
    envC3.macResult = some macMsg ∧
    macMsg ≠ piperMsg ∧
    (SynthAgent.Synthesize synthAgentEx (some normalizedEx) (some voiceEx)
        (some spEx) envC3 42).1 =
      .error ("both Piper and macOS TTS failed: piper=" ++ macMsg ++
        ", macos=" ++ macMsg) := by
  refine ⟨rfl, rfl, by decide, rfl⟩

/-- C5 counterexample: for a model-driven voice whose model file is missing,
`Synthesize` fails immediately with "voice model file not found" and invokes
no engine at all — even though the secondary engine is available and would
succeed (no transition to the secondary happens). -/
theorem c5_counterexample :
    envC5.modelFileExists = false ∧
    envC5.macAvailable = true ∧
    envC5.macResult = none ∧
    SynthAgent.Synthesize synthAgentEx (some normalizedEx) (some voiceEx)
        (some spEx) envC5 42 =
      (.error "voice model file not found: /models/en_us.onnx", []) := by
  refine ⟨rfl, rfl, rfl, rfl⟩

/-- C6 counterexample: with dry-run off, a successful ffmpeg run and an
existing but zero-size output file, `Process` reports success (with
`FileSize = 0`) instead of an encoding error. -/
theorem c6_counterexample :
    postAgentEx.dryRun = false ∧
    envC6.outputStat = some 0 ∧
    PostProcessAgent.Process postAgentEx "/tmp/work/synth_42.wav"
        "/out/voice.mp3" (some ppEx) envC6 =
      .ok { OutputPath := "/out/voice.mp3", Format := "mp3",
            SampleRate := 48000, Channels := 1, Duration := 0,
            FileSize := 0 } := by
  refine ⟨rfl, rfl, rfl⟩

/-- C5 (amended): only a primary-engine execution failure (piper returning an
error, e.g. a non-zero exit) triggers the transition to the secondary
built-in engine, whose gender is inferred from the request's speaker
parameter (`> 0` ⇒ male, else female); a missing model file instead aborts
immediately (see the counterexample). With the secondary available and
succeeding, the run recovers and returns a result. -/
theorem c5_fallback_only_on_execution_failure (s : SynthAgent)
    (nt : NormalizedText) (v : Voice) (p : SynthParams) (env : SynthEnv)
    (nowNano : Nat) (e : String) (sz : Int)
    (hdry : s.dryRun = false) (hmac : s.isMacOSVoice v = false)
    (hval : s.validateParams p = none) (hmf : env.modelFileExists = true)
    (hpip : env.piperResult = some e) (hav : env.macAvailable = true)
    (hmr : env.macResult = none) (hout : env.outputFileSize = some sz) :
    SynthAgent.Synthesize s (some nt) (some v) (some p) env nowNano =
      (.ok { OutputPath := joinPath s.tempDir
               ("synth_" ++ toString nowNano ++ ".wav"),
             Duration := env.elapsed, SampleRate := v.SampleRate,
             Channels := 1, FileSize := sz },
       [.piperRun, .macRun (if p.Speaker > 0 then "male" else "female")
          (selectVoice (if p.Speaker > 0 then "male" else "female")
            nt.Language)]) := by
  simp [SynthAgent.Synthesize, hdry, hmac, hval, hmf, hpip, hav, hmr, hout]

/-- Witness for the amended C5: piper fails, the macOS fallback runs with the
female voice (speaker 0) and the run succeeds. -/
theorem c5_fallback_only_on_execution_failure_witness :
    (synthAgentEx.dryRun = false ∧
      synthAgentEx.isMacOSVoice voiceEx = false ∧
      synthAgentEx.validateParams spEx = none) ∧
    SynthAgent.Synthesize synthAgentEx (some normalizedEx) (some voiceEx)
        (some spEx)
        { modelFileExists := true, piperResult := some piperMsg,
          macAvailable := true, macResult := none, elapsed := 5,
          outputFileSize := some 77 } 42 =
      (.ok { OutputPath := joinPath synthAgentEx.tempDir
               ("synth_" ++ toString 42 ++ ".wav"),
             Duration := 5, SampleRate := voiceEx.SampleRate,
             Channels := 1, FileSize := 77 },
       [.piperRun, .macRun (if spEx.Speaker > 0 then "male" else "female")
          (selectVoice (if spEx.Speaker > 0 then "male" else "female")
            normalizedEx.Language)]) :=
  ⟨⟨rfl, rfl, rfl⟩,
    c5_fallback_only_on_execution_failure synthAgentEx normalizedEx voiceEx
      spEx _ 42 piperMsg 77 rfl rfl rfl rfl rfl rfl rfl rfl⟩

/-- C6 (amended): after a successful ffmpeg run, `Process` fails only when
the output file is missing; an existing but empty output is not checked (see
the counterexample, where it is reported as success). -/
theorem c6_missing_output_is_error (p : PostProcessAgent)
    (inputPath outputPath : String) (params : PostProcessParams)
    (env : PostEnv) (hdry : p.dryRun = false)
    (hval : p.validateParams params = none) (hin : env.inputExists = true)
    (hff : env.ffmpegResult = none) (hout : env.outputStat = none) :
    PostProcessAgent.Process p inputPath outputPath (some params) env =
      .error "failed to get output file info: file does not exist" := by
  simp [PostProcessAgent.Process, hdry, hval, hin, hff, hout]

/-- Witness for the amended C6: valid mp3 parameters, ffmpeg succeeds, no
output file appears — `Process` returns the stat error. -/
theorem c6_missing_output_is_error_witness :
    (postAgentEx.dryRun = false ∧ postAgentEx.validateParams ppEx = none) ∧
    PostProcessAgent.Process postAgentEx "/tmp/work/synth_42.wav"
        "/out/voice.mp3" (some ppEx)
        { inputExists := true, ffmpegResult := none, outputStat := none } =
      .error "failed to get output file info: file does not exist" :=
  ⟨⟨rfl, rfl⟩,
    c6_missing_output_is_error postAgentEx "/tmp/work/synth_42.wav"
      "/out/voice.mp3" ppEx _ rfl rfl rfl rfl rfl⟩

/-- C2 counterexample: two requests whose text sequences differ (a different
paragraph list), with everything else identical, receive the *same* cache
key: the hasher concatenates the paragraphs with no separator, so
re-segmenting the text does not change the hashed stream. This refutes "any
change to one of those listed fields changes the key". -/
theorem c2_counterexample :
    contentA.Paragraphs ≠ contentB.Paragraphs ∧
    CacheAgent.GenerateKey cacheEx contentA voiceEx (some spEx) (some ppEx) =
      CacheAgent.GenerateKey cacheEx contentB voiceEx (some spEx) (some ppEx) := by
  constructor
  · decide
  · show sha256hex (keyMessage contentA voiceEx (some spEx) (some ppEx)) =
      sha256hex (keyMessage contentB voiceEx (some spEx) (some ppEx))
    have h : keyMessage contentA voiceEx (some spEx) (some ppEx) =
        keyMessage contentB voiceEx (some spEx) (some ppEx) := by decide
    rw [h]

/-- C2 (amended): `GenerateKey` is a pure function of exactly {the
concatenation of the paragraphs (in order, verbatim), voice id, speed, noise,
noiseWidth, speaker, format, sampleRate, bitrate, loudness}: repeated calls
on identical content return the same key, and no other field — the agent,
the content's language/word-count/source, or any voice field besides the id —
ever changes the key. (By the counterexample, a change *to* a listed field
need not change the key when the concatenated stream is unchanged.) -/
theorem c2_key_determined_by_hashed_fields (ca cb : CacheAgent)
    (ta tb : TextContent) (va vb : Voice) (spa spb : Option SynthParams)
    (ppa ppb : Option PostProcessParams)
    (hpara : String.join ta.Paragraphs = String.join tb.Paragraphs)
    (hid : va.ID = vb.ID) (hsp : spa = spb) (hpp : ppa = ppb) :
    CacheAgent.GenerateKey ca ta va spa ppa =
      CacheAgent.GenerateKey cb tb vb spb ppb := by
  subst hsp hpp
  show sha256hex (keyMessage ta va spa ppa) = sha256hex (keyMessage tb vb spa ppa)
  simp only [keyMessage, hpara, hid]

/-- Witness for the amended C2: two agents with different directories, two
contents with the same paragraphs but different language/word-count/source
metadata, and two voices sharing only the id, produce the same key. -/
theorem c2_key_determined_by_hashed_fields_witness :
    (String.join contentA.Paragraphs = String.join contentA2.Paragraphs ∧
      voiceEx.ID = voiceEx2.ID) ∧
    CacheAgent.GenerateKey cacheEx contentA voiceEx (some spEx) (some ppEx) =
      CacheAgent.GenerateKey (NewCacheAgent "/other") contentA2 voiceEx2
        (some spEx) (some ppEx) :=
  ⟨⟨rfl, rfl⟩,
    c2_key_determined_by_hashed_fields cacheEx (NewCacheAgent "/other")
      contentA contentA2 voiceEx voiceEx2 (some spEx) (some spEx) (some ppEx)
      (some ppEx) rfl rfl rfl rfl⟩

/-- C7: for an initialized cache, `Get` on an unknown key is a miss with no
error and no state change; on a known key whose artifact file is absent, the
stale entry is evicted and the result is a miss with no error; on a known key
whose entry is older than the TTL, the entry is evicted and the result is a
miss with no error. Both staleness checks read the current filesystem and
clock. -/
theorem c7_get_miss_semantics (c : CacheAgent) (idx : CacheIndex) (fs : FS)
    (now : Nat) (key : String) (hinit : c.index = some idx) :
    (lookupEntry idx.Entries key = none →
      CacheAgent.Get c fs now key = ⟨none, none, c, fs⟩) ∧
    (∀ e, lookupEntry idx.Entries key = some e →
      fsStat fs e.FilePath = none →
      (CacheAgent.Get c fs now key).entry = none ∧
      (CacheAgent.Get c fs now key).err = none ∧
      CacheAgent.hasKey (CacheAgent.Get c fs now key).c key = false) ∧
    (∀ e, lookupEntry idx.Entries key = some e →
      (fsStat fs e.FilePath).isSome = true →
      now - e.CreatedAt > c.maxAge →
      (CacheAgent.Get c fs now key).entry = none ∧
      (CacheAgent.Get c fs now key).err = none ∧
      CacheAgent.hasKey (CacheAgent.Get c fs now key).c key = false) := by
  refine ⟨?_, ?_, ?_⟩
  · intro h
    simp [CacheAgent.Get, hinit, h]
  · intro e he hstat
    simp [CacheAgent.Get, hinit, he, hstat, CacheAgent.hasKey,
      lookupEntry_erase_self]
  · intro e he hstat hage
    obtain ⟨sz, hsz⟩ := Option.isSome_iff_exists.mp hstat
    simp [CacheAgent.Get, hinit, he, hsz, hage, CacheAgent.hasKey,
      lookupEntry_erase_self]

/-- Witness for C7, at the unknown-key case of a concrete initialized
cache. -/
theorem c7_get_miss_semantics_witness :
    (cacheC7.index = some idxC7 ∧
      lookupEntry idxC7.Entries "missing" = none) ∧
    CacheAgent.Get cacheC7 fsC7 5 "missing" = ⟨none, none, cacheC7, fsC7⟩ :=
  ⟨⟨rfl, by decide⟩,
    (c7_get_miss_semantics cacheC7 idxC7 fsC7 5 "missing" rfl).1 (by decide)⟩

/-- C8 counterexample: when the caller's source path happens to be the
cache's own storage path for the key (`cacheDir/key + ext`), `Put` succeeds
but the "copy" aliases the source: `os.Create` truncates the destination —
which *is* the source — so the subsequent `Get` hit references the caller's
path itself and its content is empty, not byte-identical to the original
artifact. -/
theorem c8_counterexample :
    fsGet fsC8 "/c8/k.mp3" = some [1, 2, 3] ∧
    (CacheAgent.Put cacheC8 fsC8 7 "k" "/c8/k.mp3" []).err = none ∧
    (CacheAgent.Get (CacheAgent.Put cacheC8 fsC8 7 "k" "/c8/k.mp3" []).c
        (CacheAgent.Put cacheC8 fsC8 7 "k" "/c8/k.mp3" []).fs 7 "k").entry =
      some { Key := "k", FilePath := "/c8/k.mp3", CreatedAt := 7,
             FileSize := 3, Metadata := [] } ∧
    fsGet (CacheAgent.Put cacheC8 fsC8 7 "k" "/c8/k.mp3" []).fs "/c8/k.mp3" =
      some [] := by
  refine ⟨by decide, by decide, by decide, by decide⟩

/-- C8 (amended): for an initialized cache and an existing artifact file
whose path is not the cache's own storage path for the key (and whose
storage path does not collide with the index file), `Put` succeeds and an
immediate `Get` is a hit whose entry references a cache-owned file — a path
distinct from the caller's — with content byte-identical to the original
artifact. -/
theorem c8_put_get_roundtrip (c : CacheAgent) (idx : CacheIndex) (fs : FS)
    (now : Nat) (key srcPath : String) (content : List Nat) (md : Metadata)
    (hinit : c.index = some idx)
    (hsrc : fsGet fs srcPath = some content)
    (hne : joinPath c.cacheDir (key ++ goExt srcPath) ≠ srcPath)
    (hix : c.indexPath ≠ joinPath c.cacheDir (key ++ goExt srcPath)) :
    (CacheAgent.Put c fs now key srcPath md).err = none ∧
    ∃ e, (CacheAgent.Get (CacheAgent.Put c fs now key srcPath md).c
        (CacheAgent.Put c fs now key srcPath md).fs now key).entry = some e ∧
      (CacheAgent.Get (CacheAgent.Put c fs now key srcPath md).c
        (CacheAgent.Put c fs now key srcPath md).fs now key).err = none ∧
      e.FilePath ≠ srcPath ∧
      fsGet (CacheAgent.Put c fs now key srcPath md).fs e.FilePath =
        some content := by
  have hstat : fsStat fs srcPath = some ((content.length : Int)) := by
    simp [fsStat, hsrc]
  have hcopy : copyFile fs srcPath (joinPath c.cacheDir (key ++ goExt srcPath)) =
      fsSet (fsSet fs (joinPath c.cacheDir (key ++ goExt srcPath)) [])
        (joinPath c.cacheDir (key ++ goExt srcPath)) content := by
    simp only [copyFile]
    rw [fsGet_set_of_ne _ _ _ _ hne, hsrc]
  have hput : CacheAgent.Put c fs now key srcPath md =
      ⟨none,
        { c with index := some ⟨setEntry idx.Entries key
            { Key := key,
              FilePath := joinPath c.cacheDir (key ++ goExt srcPath),
              CreatedAt := now, FileSize := (content.length : Int),
              Metadata := md }, idx.Version⟩ },
        fsSet (fsSet (fsSet fs (joinPath c.cacheDir (key ++ goExt srcPath)) [])
            (joinPath c.cacheDir (key ++ goExt srcPath)) content)
          c.indexPath
          (encodeIndex ⟨setEntry idx.Entries key
            { Key := key,
              FilePath := joinPath c.cacheDir (key ++ goExt srcPath),
              CreatedAt := now, FileSize := (content.length : Int),
              Metadata := md }, idx.Version⟩)⟩ := by
    simp only [CacheAgent.Put, hinit, hstat, hcopy, saveIndex]
  rw [hput]
  have hfsd : fsGet
      (fsSet (fsSet (fsSet fs (joinPath c.cacheDir (key ++ goExt srcPath)) [])
          (joinPath c.cacheDir (key ++ goExt srcPath)) content)
        c.indexPath
        (encodeIndex ⟨setEntry idx.Entries key
          { Key := key,
            FilePath := joinPath c.cacheDir (key ++ goExt srcPath),
            CreatedAt := now, FileSize := (content.length : Int),
            Metadata := md }, idx.Version⟩))
      (joinPath c.cacheDir (key ++ goExt srcPath)) = some content := by
    rw [fsGet_set_of_ne _ _ _ _ hix, fsGet_set_self]
  refine ⟨rfl, ⟨⟨key, joinPath c.cacheDir (key ++ goExt srcPath), now,
      (content.length : Int), md⟩, ?_, ?_, hne, hfsd⟩⟩
  · simp only [CacheAgent.Get, lookupEntry_set_self, hfsd, fsStat,
      Option.map_some, Option.isNone_some, Bool.false_eq_true, if_false,
      Nat.sub_self]
    simp
  · simp only [CacheAgent.Get, lookupEntry_set_self, hfsd, fsStat,
      Option.map_some, Option.isNone_some, Bool.false_eq_true, if_false,
      Nat.sub_self]
    simp

/-- Witness for the amended C8: a round trip through a concrete initialized
cache with the artifact outside the cache directory. -/
theorem c8_put_get_roundtrip_witness :
    (cacheC8.index = some ⟨[], "1.0"⟩ ∧
      fsGet fsC8b "/tmp/out.mp3" = some [9, 8, 7] ∧
      joinPath cacheC8.cacheDir ("kk" ++ goExt "/tmp/out.mp3") ≠
        "/tmp/out.mp3" ∧
      cacheC8.indexPath ≠
        joinPath cacheC8.cacheDir ("kk" ++ goExt "/tmp/out.mp3")) ∧
    ((CacheAgent.Put cacheC8 fsC8b 7 "kk" "/tmp/out.mp3" []).err = none ∧
      ∃ e, (CacheAgent.Get
          (CacheAgent.Put cacheC8 fsC8b 7 "kk" "/tmp/out.mp3" []).c
          (CacheAgent.Put cacheC8 fsC8b 7 "kk" "/tmp/out.mp3" []).fs 7
          "kk").entry = some e ∧
        (CacheAgent.Get
          (CacheAgent.Put cacheC8 fsC8b 7 "kk" "/tmp/out.mp3" []).c
          (CacheAgent.Put cacheC8 fsC8b 7 "kk" "/tmp/out.mp3" []).fs 7
          "kk").err = none ∧
        e.FilePath ≠ "/tmp/out.mp3" ∧
        fsGet (CacheAgent.Put cacheC8 fsC8b 7 "kk" "/tmp/out.mp3" []).fs
          e.FilePath = some [9, 8, 7]) :=
  ⟨⟨rfl, by decide, by decide, by decide⟩,
    c8_put_get_roundtrip cacheC8 ⟨[], "1.0"⟩ fsC8b 7 "kk" "/tmp/out.mp3"
      [9, 8, 7] [] rfl (by decide) (by decide) (by decide)⟩
